import Mathlib

/-!
Shallow embedding of the keepsake-mcp server core (src/index.ts): the
query-string builder `qs`, the HTTP helper `fetchApi`, the content renderer
`toContent`, and representative per-operation handlers, together with
theorems about the behaviour of those functions.
-/

namespace Keepsake

/-- JSON values as produced by a successful body parse.  Numbers are modelled
as integers (the fragment exercised by the server only ever carries integral
numbers). -/
inductive Json where
  | null
  | bool (b : Bool)
  | num (n : Int)
  | str (s : String)
  | arr (elems : List Json)
  | obj (fields : List (String × Json))

/-- Character constant: double quote. -/
def quoteChar : Char := Char.ofNat 34

/-- Character constant: backslash. -/
def backslashChar : Char := Char.ofNat 92

/-- Lower-case hexadecimal digit, used by the \u escapes of JSON.stringify. -/
def hexDigitLower (n : Nat) : Char :=
  if n < 10 then Char.ofNat (48 + n) else Char.ofNat (87 + n)

/-- Upper-case hexadecimal digit, used by encodeURIComponent. -/
def hexDigitUpper (n : Nat) : Char :=
  if n < 10 then Char.ofNat (48 + n) else Char.ofNat (55 + n)

/-- Four lower-case hex digits, as in a JSON \uXXXX escape. -/
def hex4 (n : Nat) : String :=
  String.singleton (hexDigitLower (n / 4096 % 16)) ++
  String.singleton (hexDigitLower (n / 256 % 16)) ++
  String.singleton (hexDigitLower (n / 16 % 16)) ++
  String.singleton (hexDigitLower (n % 16))

/-- How JSON.stringify escapes one character inside a string literal. -/
def escapeChar (c : Char) : String :=
  if c = quoteChar then String.singleton backslashChar ++ String.singleton quoteChar
  else if c = backslashChar then String.singleton backslashChar ++ String.singleton backslashChar
  else if c = Char.ofNat 10 then String.singleton backslashChar ++ "n"
  else if c = Char.ofNat 9 then String.singleton backslashChar ++ "t"
  else if c = Char.ofNat 13 then String.singleton backslashChar ++ "r"
  else if c = Char.ofNat 8 then String.singleton backslashChar ++ "b"
  else if c = Char.ofNat 12 then String.singleton backslashChar ++ "f"
  else if c.toNat < 32 then String.singleton backslashChar ++ "u" ++ hex4 c.toNat
  else String.singleton c

/-- A JSON string literal: the body escaped and wrapped in double quotes. -/
def quoteStr (s : String) : String :=
  String.singleton quoteChar ++ String.join (s.data.map escapeChar) ++
  String.singleton quoteChar

mutual

/-- Compact JSON.stringify (no indent argument), as used for error objects. -/
def stringify0 : Json → String
  | .null => "null"
  | .bool true => "true"
  | .bool false => "false"
  | .num n => toString n
  | .str s => quoteStr s
  | .arr elems => "[" ++ String.intercalate "," (stringifyList0 elems) ++ "]"
  | .obj fields =>
      "\x7b" ++ String.intercalate "," (stringifyFields0 fields) ++ "\x7d"

/-- Compact serialization of the elements of a JSON array. -/
def stringifyList0 : List Json → List String
  | [] => []
  | x :: xs => stringify0 x :: stringifyList0 xs

/-- Compact serialization of the fields of a JSON object. -/
def stringifyFields0 : List (String × Json) → List String
  | [] => []
  | (k, v) :: fs => (quoteStr k ++ ":" ++ stringify0 v) :: stringifyFields0 fs

end

/-- The indentation produced by JSON.stringify with gap 2 at depth d. -/
def ind (d : Nat) : String := String.join (List.replicate d "  ")

mutual

/-- JSON.stringify with indent 2 at a given depth, as used for success
payloads (JSON.stringify(value, null, 2)). -/
def pretty : Json → Nat → String
  | .null, _ => "null"
  | .bool true, _ => "true"
  | .bool false, _ => "false"
  | .num n, _ => toString n
  | .str s, _ => quoteStr s
  | .arr [], _ => "[]"
  | .arr (x :: xs), d =>
      "[\n" ++ String.intercalate ",\n" (prettyList (x :: xs) (d + 1)) ++
      "\n" ++ ind d ++ "]"
  | .obj [], _ => "\x7b\x7d"
  | .obj (f :: fs), d =>
      "\x7b\n" ++ String.intercalate ",\n" (prettyFields (f :: fs) (d + 1)) ++
      "\n" ++ ind d ++ "\x7d"

/-- Indented serialization of the elements of a JSON array. -/
def prettyList : List Json → Nat → List String
  | [], _ => []
  | x :: xs, d => (ind d ++ pretty x d) :: prettyList xs d

/-- Indented serialization of the fields of a JSON object. -/
def prettyFields : List (String × Json) → Nat → List String
  | [], _ => []
  | (k, v) :: fs, d =>
      (ind d ++ quoteStr k ++ ": " ++ pretty v d) :: prettyFields fs d

end

/-- JSON.stringify(value, null, 2) — the pretty serialization used by the
success branch of toContent. -/
def stringify2 (v : Json) : String := pretty v 0

mutual

/-- JavaScript string coercion String(v) of a parsed JSON value, as performed
by the template literal building the error text. -/
def jsString : Json → String
  | .null => "null"
  | .bool true => "true"
  | .bool false => "false"
  | .num n => toString n
  | .str s => s
  | .arr elems => jsArrJoin elems
  | .obj _ => "[object Object]"

/-- Array.prototype.toString: elements joined with commas, null rendered
as the empty string. -/
def jsArrJoin : List Json → String
  | [] => ""
  | [.null] => ""
  | [x] => jsString x
  | .null :: xs => "," ++ jsArrJoin xs
  | x :: xs => jsString x ++ "," ++ jsArrJoin xs

end

/-- JavaScript truthiness of a parsed JSON value. -/
def truthy : Json → Bool
  | .null => false
  | .bool b => b
  | .num n => n != 0
  | .str s => s != ""
  | .arr _ => true
  | .obj _ => true

/-- Property lookup on the field list of a parsed JSON object.  Objects
produced by JSON.parse have unique keys, so first match is property access. -/
def lookupField : List (String × Json) → String → Option Json
  | [], _ => none
  | (k, v) :: rest, key => if k = key then some v else lookupField rest key

/-- Property access result.key on a parsed JSON value: none models the
JavaScript undefined obtained for missing fields or non-object values. -/
def getField (j : Json) (key : String) : Option Json :=
  match j with
  | .obj fields => lookupField fields key
  | _ => none

/-- One MCP content block, always of type "text" here. -/
structure TextBlock where
  ty : String
  text : String
deriving DecidableEq

/-- The value returned by a tool handler: an ordered list of content blocks. -/
structure McpContent where
  content : List TextBlock
deriving DecidableEq

/-- The condition of toContent's first branch: if (result.error).  This is
JavaScript truthiness of the possibly-absent error property, so it holds only
when an error field is present AND its value is truthy. -/
def classifiedAsFailure (result : Json) : Bool :=
  match getField result "error" with
  | some e => truthy e
  | none => false

/-- The message value selected by toContent for a failure:
typeof error === "string" ? error : error.message || JSON.stringify(error). -/
def errMsgVal (e : Json) : Json :=
  match e with
  | .str s => .str s
  | _ =>
      match getField e "message" with
      | some m => if truthy m then m else .str (stringify0 e)
      | none => .str (stringify0 e)

/-- The payload serialized by toContent's success branch:
result.data ?? result (nullish coalescing, so an absent or null data field
falls back to the whole result). -/
def dataOrSelf (result : Json) : Json :=
  match getField result "data" with
  | some d => match d with
              | .null => result
              | _ => d
  | none => result

/-- toContent from src/index.ts: format an API result as MCP text content. -/
def toContent (result : Json) : McpContent :=
  if classifiedAsFailure result then
    ⟨[⟨"text", "Error: " ++ jsString (errMsgVal ((getField result "error").getD Json.null))⟩]⟩
  else
    ⟨[⟨"text", stringify2 (dataOrSelf result)⟩]⟩

/-- Outcome of the awaited transport round trip inside fetchApi's try block:
either fetch itself rejects, or it resolves with an HTTP status and a body
whose JSON parse may fail.  Errors carry their JavaScript String(err) form. -/
inductive Transport where
  | fail (err : String)
  | ok (status : Nat) (body : Except String Json)

/-- The error object fetchApi synthesizes in its catch handler. -/
def networkErrorJson (e : String) : Json :=
  .obj [("error", .obj [("code", .str "NETWORK_ERROR"), ("message", .str e)])]

/-- The ApiResult value fetchApi resolves with: the parsed JSON on success,
and the synthesized NETWORK_ERROR object when fetch rejects or the body
fails to parse as JSON (both throw inside the same try block). -/
def fetchResult : Transport → Json
  | .fail e => networkErrorJson e
  | .ok _ (.error e) => networkErrorJson e
  | .ok _ (.ok j) => j

/-- The RequestInit fetchApi constructs before calling fetch. -/
structure RequestInit where
  method : String
  authorization : String
  contentType : String
  reqBody : Option String
deriving DecidableEq

/-- Request construction in fetchApi: headers always carry the bearer token
and JSON content type; the body is attached only when one was supplied and
the method is not GET. -/
def mkInit (apiKey : String) (method : String) (body : Option Json) : RequestInit :=
  { method := method
  , authorization := "Bearer " ++ apiKey
  , contentType := "application/json"
  , reqBody :=
      match body with
      | some b => if method ≠ "GET" then some (stringify0 b) else none
      | none => none }

/-- A value of the parameter record accepted by qs:
string | number | boolean | undefined (null can also flow in at runtime). -/
inductive QVal where
  | undef
  | vnull
  | vstr (s : String)
  | vnum (n : Int)
  | vbool (b : Bool)

/-- The inclusion test of qs's loop:
v !== undefined && v !== null && v !== "" under JavaScript strict equality
(a number or boolean is never strictly equal to a string). -/
def includeParam : QVal → Bool
  | .undef => false
  | .vnull => false
  | .vstr s => s != ""
  | .vnum _ => true
  | .vbool _ => true

/-- JavaScript String(v) for a query parameter value. -/
def qvalToString : QVal → String
  | .undef => "undefined"
  | .vnull => "null"
  | .vstr s => s
  | .vnum n => toString n
  | .vbool true => "true"
  | .vbool false => "false"

/-- The set of characters encodeURIComponent leaves unescaped:
ASCII alphanumerics and - _ . ! ~ * ' ( ). -/
def isUriUnescaped (c : Char) : Bool :=
  c.isAlpha || c.isDigit ||
  ['-', '_', '.', '!', '~', '*', Char.ofNat 39, '(', ')'].contains c

/-- UTF-8 encoding of a code point, as percent-escaped by encodeURIComponent. -/
def utf8Bytes (n : Nat) : List Nat :=
  if n < 128 then [n]
  else if n < 2048 then [192 + n / 64, 128 + n % 64]
  else if n < 65536 then [224 + n / 4096, 128 + n / 64 % 64, 128 + n % 64]
  else [240 + n / 262144, 128 + n / 4096 % 64, 128 + n / 64 % 64, 128 + n % 64]

/-- One percent-escaped byte, with upper-case hex digits. -/
def byteHex (b : Nat) : String :=
  "%" ++ String.singleton (hexDigitUpper (b / 16)) ++
  String.singleton (hexDigitUpper (b % 16))

/-- encodeURIComponent on one character. -/
def encChar (c : Char) : String :=
  if isUriUnescaped c then String.singleton c
  else String.join ((utf8Bytes c.toNat).map byteHex)

/-- encodeURIComponent. -/
def encodeURIComponent (s : String) : String :=
  String.join (s.data.map encChar)

/-- qs from src/index.ts: build a query string from the parameter record,
iterating entries in declared order and pushing the encoded key=value pair
for every parameter that passes the inclusion test; the result is prefixed
with ? when at least one pair was pushed and is empty otherwise. -/
def qs (params : List (String × QVal)) : String :=
  let parts := params.foldl
    (fun acc p =>
      if includeParam p.2 then
        acc ++ [encodeURIComponent p.1 ++ "=" ++ encodeURIComponent (qvalToString p.2)]
      else acc)
    []
  if parts.length != 0 then "?" ++ String.intercalate "&" parts else ""

/-- One HTTP-shaped request as issued by a handler through fetchApi:
path relative to the base URL, method, and optional structured body. -/
structure RemoteCall where
  path : String
  method : String
  callBody : Option Json

/-- Truthiness of an optional boolean argument (undefined is falsy). -/
def optTruthy : Option Bool → Bool
  | some b => b
  | none => false

/-- The delete_company handler: permanent ? "?permanent=true" : "" appended
to /companies/id, method DELETE, no body. -/
def delete_company_call (id : String) (permanent : Option Bool) : RemoteCall :=
  { path := "/companies/" ++ id ++ (if optTruthy permanent then "?permanent=true" else "")
  , method := "DELETE"
  , callBody := none }

/-- The delete_note handler: permanent ? "?permanent=true" : "" appended
to /notes/id, method DELETE, no body. -/
def delete_note_call (id : String) (permanent : Option Bool) : RemoteCall :=
  { path := "/notes/" ++ id ++ (if optTruthy permanent then "?permanent=true" else "")
  , method := "DELETE"
  , callBody := none }

/-- The update_contact handler on its validated argument object
(destructured as const open-brace id, ...body close-brace): the id property
is spliced into the path template and the rest spread collects every other
property as the PATCH body. -/
def update_contact_call (args : List (String × Json)) : RemoteCall :=
  { path :=
      match lookupField args "id" with
      | some v => "/contacts/" ++ jsString v
      | none => "/contacts/undefined"
  , method := "PATCH"
  , callBody := some (.obj (args.filter (fun p => p.1 != "id"))) }

/-! ## Helper lemmas -/

/-- A fold that conditionally pushes onto an accumulator list equals the
accumulator followed by the filtered, mapped input. -/
theorem foldl_push_eq_filter_map {α β : Type} (P : α → Bool) (f : α → β)
    (l : List α) : ∀ acc : List β,
      l.foldl (fun acc x => if P x then acc ++ [f x] else acc) acc
        = acc ++ (l.filter P).map f := by
  induction l with
  | nil => intro acc; simp
  | cons x xs ih =>
      intro acc
      rcases h : P x with _ | _ <;>
        simp [List.filter_cons, h, ih, List.append_assoc]

/-- Rendering the synthesized NETWORK_ERROR object always produces a single
text block whose text starts with the Error prefix. -/
theorem networkError_renders_error_block (e : String) :
    ∃ t, toContent (networkErrorJson e) = ⟨[⟨"text", "Error: " ++ t⟩]⟩ :=
  ⟨jsString (errMsgVal ((getField (networkErrorJson e) "error").getD Json.null)), rfl⟩

/-! ## Claim theorems -/

/-- C1: For every parameter mapping given to qs, a parameter whose value is
undefined, null, or the empty string is absent from the built query string;
every other value (including boolean false and numeric 0) is present with
both key and value percent-encoded; included parameters appear in the
mapping's declared order joined with ampersands and prefixed by a question
mark; if zero parameters qualify the query string is the empty string. -/
theorem qs_filters_encodes_and_joins (params : List (String × QVal)) :
    qs params =
      (let parts := (params.filter (fun p => includeParam p.2)).map
         (fun p => encodeURIComponent p.1 ++ "=" ++
           encodeURIComponent (qvalToString p.2))
       if parts.isEmpty then "" else "?" ++ String.intercalate "&" parts)
    ∧ includeParam QVal.undef = false
    ∧ includeParam QVal.vnull = false
    ∧ includeParam (QVal.vstr "") = false
    ∧ (∀ s : String, includeParam (QVal.vstr s) = (s != ""))
    ∧ (∀ n : Int, includeParam (QVal.vnum n) = true)
    ∧ (∀ b : Bool, includeParam (QVal.vbool b) = true) := by
  refine ⟨?_, rfl, rfl, by decide, fun s => rfl, fun n => rfl, fun b => rfl⟩
  unfold qs
  rw [foldl_push_eq_filter_map]
  simp only [List.nil_append]
  generalize ((params.filter (fun p => includeParam p.2)).map
      (fun p => encodeURIComponent p.1 ++ "=" ++
        encodeURIComponent (qvalToString p.2))) = parts
  cases parts <;> simp

/-- C2 counterexample: the response object with an error field holding the
empty string contains an error field, yet the code classifies it as a
success and renders the pretty-printed whole payload, because the branch
tests JavaScript truthiness of result.error, not field presence. -/
theorem error_field_present_but_not_failure :
    getField (Json.obj [("error", Json.str "")]) "error" = some (Json.str "")
    ∧ classifiedAsFailure (Json.obj [("error", Json.str "")]) = false
    ∧ toContent (Json.obj [("error", Json.str "")])
        = ⟨[⟨"text", "\x7b\n  \x22error\x22: \x22\x22\n\x7d"⟩]⟩ :=
  ⟨rfl, rfl, rfl⟩

/-- C2 (amended): for every successful transport round trip the parsed JSON
body is passed through unchanged, it is classified as a Failure if and only
if it contains an error field whose value is JavaScript-truthy (not null,
false, 0, or the empty string), and the classification and result do not
depend on the HTTP status code. -/
theorem parsed_body_passthrough_and_truthy_classification :
    (∀ (status : Nat) (j : Json), fetchResult (.ok status (.ok j)) = j)
    ∧ (∀ result : Json, classifiedAsFailure result = true ↔
        ∃ e, getField result "error" = some e ∧ truthy e = true)
    ∧ (∀ (s s' : Nat) (b : Except String Json),
        fetchResult (.ok s b) = fetchResult (.ok s' b)) := by
  refine ⟨fun _ _ => rfl, fun result => ?_, fun s s' b => by cases b <;> rfl⟩
  unfold classifiedAsFailure
  cases h : getField result "error" <;> simp

/-- C2 witness: the amended classification rule evaluated at a concrete
response carrying a truthy error string. -/
theorem parsed_body_passthrough_witness :
    classifiedAsFailure (Json.obj [("error", Json.str "boom")]) = true ↔
      ∃ e, getField (Json.obj [("error", Json.str "boom")]) "error" = some e
        ∧ truthy e = true :=
  parsed_body_passthrough_and_truthy_classification.2.1
    (Json.obj [("error", Json.str "boom")])

/-- C3 counterexample: a success-shaped response whose data field holds JSON
null has a data field, yet rendering yields the pretty-printed whole payload
rather than the re-serialized data field, because the code uses the nullish
coalescing result.data ?? result. -/
theorem null_data_field_renders_whole_payload :
    getField (Json.obj [("data", Json.null)]) "data" = some Json.null
    ∧ toContent (Json.obj [("data", Json.null)])
        = ⟨[⟨"text", "\x7b\n  \x22data\x22: null\n\x7d"⟩]⟩
    ∧ stringify2 Json.null = "null"
    ∧ "\x7b\n  \x22data\x22: null\n\x7d" ≠ "null" :=
  ⟨rfl, rfl, rfl, by decide⟩

/-- C3 (amended): for every success-shaped response (no error field),
rendering yields exactly one text block: the pretty-printed 2-space-indented
JSON of the data field when a data field is present with a non-null value,
else the pretty-printed JSON of the entire payload (also when the data field
is present but null); composing the renderer with the normalizer on a parsed
body renders that body itself. -/
theorem success_render_pretty_data_or_payload (result : Json)
    (hne : getField result "error" = none) :
    (∀ d, getField result "data" = some d → d ≠ Json.null →
        toContent result = ⟨[⟨"text", stringify2 d⟩]⟩)
    ∧ ((getField result "data" = none ∨ getField result "data" = some Json.null) →
        toContent result = ⟨[⟨"text", stringify2 result⟩]⟩)
    ∧ (∀ status : Nat,
        toContent (fetchResult (.ok status (.ok result))) = toContent result) := by
  have hfail : classifiedAsFailure result = false := by
    unfold classifiedAsFailure
    rw [hne]
  refine ⟨fun d hd hdn => ?_, fun h => ?_, fun _ => rfl⟩
  · rw [toContent, hfail]
    simp only [Bool.false_eq_true, if_false]
    have : dataOrSelf result = d := by
      unfold dataOrSelf
      rw [hd]
      cases d <;> simp_all
    rw [this]
  · rw [toContent, hfail]
    simp only [Bool.false_eq_true, if_false]
    have : dataOrSelf result = result := by
      unfold dataOrSelf
      rcases h with h | h <;> rw [h]
    rw [this]

/-- C3 witness: the amended rendering rule evaluated on a concrete response
with a non-null data field. -/
theorem success_render_pretty_data_witness :
    toContent (Json.obj [("data", Json.num 7)]) = ⟨[⟨"text", "7"⟩]⟩ :=
  (success_render_pretty_data_or_payload (Json.obj [("data", Json.num 7)]) rfl).1
    (Json.num 7) rfl (fun h => nomatch h)

/-- C4: for every transport-level failure of the remote call, the handler
never propagates a thrown error: the catch handler converts the exception to
a failure object with fixed code NETWORK_ERROR and the stringified cause as
message, and the renderer turns that into a single text block starting with
the Error prefix. -/
theorem transport_failure_converted_not_thrown (e : String) :
    fetchResult (.fail e)
      = Json.obj [("error",
          Json.obj [("code", Json.str "NETWORK_ERROR"), ("message", Json.str e)])]
    ∧ ∃ t, toContent (fetchResult (.fail e)) = ⟨[⟨"text", "Error: " ++ t⟩]⟩ :=
  ⟨rfl, networkError_renders_error_block e⟩

/-- C5 counterexample: a failure whose structured error object carries an
empty-string message has a message, yet the code renders the compact JSON
encoding of the whole error object instead of that (empty) message, because
error.message is or-chained with JSON.stringify and the empty string is
falsy. -/
theorem empty_message_renders_json_not_message :
    classifiedAsFailure
        (Json.obj [("error",
          Json.obj [("code", Json.str "X"), ("message", Json.str "")])]) = true
    ∧ lookupField [("code", Json.str "X"), ("message", Json.str "")] "message"
        = some (Json.str "")
    ∧ toContent (Json.obj [("error",
          Json.obj [("code", Json.str "X"), ("message", Json.str "")])])
        = ⟨[⟨"text", "Error: \x7b\x22code\x22:\x22X\x22,\x22message\x22:\x22\x22\x7d"⟩]⟩
    ∧ "Error: \x7b\x22code\x22:\x22X\x22,\x22message\x22:\x22\x22\x7d" ≠ "Error: " :=
  ⟨rfl, rfl, rfl, by decide⟩

/-- C5 (amended): for every Failure result, rendering yields exactly one text
block equal to the Error prefix concatenated with: the error's message when
the error is a structured object with a non-empty message; the error value
itself when it is a bare (necessarily non-empty) string; otherwise — in
particular also when the message is present but empty — the compact JSON
encoding of the error object.  The two scenario responses render as
Error: not found and Error: bad id. -/
theorem failure_render_message_selection :
    (∀ (result : Json) (s : String),
        getField result "error" = some (Json.str s) → s ≠ "" →
        toContent result = ⟨[⟨"text", "Error: " ++ s⟩]⟩)
    ∧ (∀ (result : Json) (fs : List (String × Json)) (m : String),
        getField result "error" = some (Json.obj fs) →
        lookupField fs "message" = some (Json.str m) → m ≠ "" →
        toContent result = ⟨[⟨"text", "Error: " ++ m⟩]⟩)
    ∧ (∀ (result : Json) (fs : List (String × Json)),
        getField result "error" = some (Json.obj fs) →
        (lookupField fs "message" = none ∨
          lookupField fs "message" = some (Json.str "")) →
        toContent result = ⟨[⟨"text", "Error: " ++ stringify0 (Json.obj fs)⟩]⟩)
    ∧ toContent (Json.obj [("error", Json.str "not found")])
        = ⟨[⟨"text", "Error: not found"⟩]⟩
    ∧ toContent (Json.obj [("error",
          Json.obj [("code", Json.str "X"), ("message", Json.str "bad id")])])
        = ⟨[⟨"text", "Error: bad id"⟩]⟩ := by
  refine ⟨fun result s hs hsne => ?_, fun result fs m hf hm hmne => ?_,
    fun result fs hf hm => ?_, rfl, rfl⟩
  · have hfail : classifiedAsFailure result = true := by
      unfold classifiedAsFailure
      rw [hs]
      simpa [truthy] using hsne
    rw [toContent, hfail]
    simp [hs, errMsgVal, jsString]
  · have hfail : classifiedAsFailure result = true := by
      unfold classifiedAsFailure
      rw [hf]
      rfl
    rw [toContent, hfail]
    simp only [if_true]
    rw [hf]
    simp [errMsgVal, getField, hm, truthy, hmne, jsString]
  · have hfail : classifiedAsFailure result = true := by
      unfold classifiedAsFailure
      rw [hf]
      rfl
    rw [toContent, hfail]
    simp only [if_true]
    rw [hf]
    rcases hm with hm | hm <;> simp [errMsgVal, getField, hm, truthy, jsString]

/-- C5 witness: the structured-object branch of the amended rule discharged
on the scenario E response. -/
theorem failure_render_message_selection_witness :
    toContent (Json.obj [("error",
        Json.obj [("code", Json.str "X"), ("message", Json.str "bad id")])])
      = ⟨[⟨"text", "Error: bad id"⟩]⟩ :=
  failure_render_message_selection.2.1 _
    [("code", Json.str "X"), ("message", Json.str "bad id")] "bad id"
    rfl rfl (by decide)

/-- C6: for every operation whose method is GET, the built HTTP request
carries no body, even when a body value was supplied to the request builder;
a non-GET method with the same supplied body does attach it. -/
theorem get_request_carries_no_body (apiKey : String) (b : Json) :
    (mkInit apiKey "GET" (some b)).reqBody = none
    ∧ (mkInit apiKey "GET" none).reqBody = none
    ∧ (mkInit apiKey "POST" (some b)).reqBody = some (stringify0 b) := by
  refine ⟨?_, rfl, ?_⟩ <;> simp [mkInit]

/-- C7: for delete_company and delete_note, a true permanent argument appends
the fixed literal query fragment ?permanent=true to the path, and a false or
absent permanent argument appends nothing; the method is DELETE and no body
is sent. -/
theorem delete_permanent_literal_query (id : String) :
    delete_company_call id (some true)
      = ⟨"/companies/" ++ id ++ "?permanent=true", "DELETE", none⟩
    ∧ delete_company_call id (some false) = ⟨"/companies/" ++ id, "DELETE", none⟩
    ∧ delete_company_call id none = ⟨"/companies/" ++ id, "DELETE", none⟩
    ∧ delete_note_call id (some true)
      = ⟨"/notes/" ++ id ++ "?permanent=true", "DELETE", none⟩
    ∧ delete_note_call id (some false) = ⟨"/notes/" ++ id, "DELETE", none⟩
    ∧ delete_note_call id none = ⟨"/notes/" ++ id, "DELETE", none⟩ := by
  refine ⟨rfl, ?_, ?_, rfl, ?_, ?_⟩ <;>
    simp [delete_company_call, delete_note_call, optTruthy]

/-- C8: for the update-style update_contact operation, the id argument is
spliced into the URL path and excluded from the PATCH body, while every
other supplied argument is forwarded verbatim in the body unchanged. -/
theorem update_contact_id_spliced_body_rest (args : List (String × Json))
    (i : String) (hid : lookupField args "id" = some (Json.str i)) :
    (update_contact_call args).path = "/contacts/" ++ i
    ∧ (update_contact_call args).method = "PATCH"
    ∧ (update_contact_call args).callBody
        = some (Json.obj (args.filter (fun p => p.1 != "id")))
    ∧ (∀ (k : String) (v : Json), (k, v) ∈ args → k ≠ "id" →
        (k, v) ∈ args.filter (fun p => p.1 != "id"))
    ∧ (∀ v : Json, ("id", v) ∉ args.filter (fun p => p.1 != "id")) := by
  refine ⟨?_, rfl, rfl, fun k v hkv hk => ?_, fun v hv => ?_⟩
  · rw [update_contact_call, hid]
    rfl
  · rw [List.mem_filter]
    exact ⟨hkv, by simpa using hk⟩
  · have := (List.mem_filter.mp hv).2
    simp at this

/-- C8 witness: the frame property discharged on a concrete argument object
carrying an id and one updatable field. -/
theorem update_contact_id_spliced_witness :
    (update_contact_call [("id", Json.str "u1"), ("first_name", Json.str "Ada")]).path
        = "/contacts/u1"
    ∧ (update_contact_call
        [("id", Json.str "u1"), ("first_name", Json.str "Ada")]).callBody
        = some (Json.obj [("first_name", Json.str "Ada")]) := by
  have h := update_contact_id_spliced_body_rest
    [("id", Json.str "u1"), ("first_name", Json.str "Ada")] "u1" rfl
  exact ⟨h.1, by simpa using h.2.2.1⟩

/-- C9: the content renderer is total: every possible result shape maps to
exactly one content value containing exactly one text block. -/
theorem toContent_single_text_block (result : Json) :
    ∃ t, toContent result = ⟨[⟨"text", t⟩]⟩ := by
  unfold toContent
  split
  · exact ⟨_, rfl⟩
  · exact ⟨_, rfl⟩

/-- C10: when the transport round trip succeeds but the response body is not
valid JSON, the parse failure is caught by the same catch handler as
transport failures and yields the NETWORK_ERROR failure object with the
stringified parse error as message, rendered as a single Error text block,
rather than a thrown exception. -/
theorem parse_failure_yields_network_error (status : Nat) (e : String) :
    fetchResult (.ok status (.error e))
      = Json.obj [("error",
          Json.obj [("code", Json.str "NETWORK_ERROR"), ("message", Json.str e)])]
    ∧ fetchResult (.ok status (.error e)) = fetchResult (.fail e)
    ∧ ∃ t, toContent (fetchResult (.ok status (.error e)))
        = ⟨[⟨"text", "Error: " ++ t⟩]⟩ :=
  ⟨rfl, rfl, networkError_renders_error_block e⟩

end Keepsake
